import Mathlib

/- Verification development for the dbfToSqlite ingestion pipeline
   (repository Doenerohnescharf/Tagesbericht, file dbfToSqlite.py).

   The embedding models the pipeline's data and operations:
     - scalar values as they travel from the DBF reader into SQLite
       (Python str() rendering, date/datetime ISO adapters),
     - the destination table as a list of rows plus an AUTOINCREMENT counter,
     - typemap / create_table_if_not_exists / load_existing_records /
       insert_records, and the per-tenant driver loop of main().

   The SQLite store is modelled in two layers.  First the Python binding
   layer: sqlite3.register_adapter(date, adapt_date) and
   sqlite3.register_adapter(datetime, adapt_datetime) turn date and datetime
   values into their isoformat() strings, and a bool binds as its integer
   value (bool is an int subclass).  Then SQLite's column type affinity is
   applied to the bound value according to the declared type of the target
   column: an integer forced into a REAL-affinity column becomes a floating
   point value, a number in a TEXT-affinity column becomes its text
   rendering, and an integral real under INTEGER/NUMERIC affinity becomes
   an integer.  Reads return the stored value unchanged (the connection is
   opened without detect_types, so stored text comes back as a plain
   string, stored integers as int, stored reals as float). -/

namespace DbfToSqlite

/- Calendar date, as Python datetime.date (naive, no timezone). -/
structure PyDate where
  year : Nat
  month : Nat
  day : Nat
deriving DecidableEq

/- Timestamp, as Python datetime.datetime with zero microseconds. -/
structure PyDateTime where
  year : Nat
  month : Nat
  day : Nat
  hour : Nat
  minute : Nat
  second : Nat
deriving DecidableEq

/- Zero-padded two-digit rendering, as Python %02d. -/
def pad2 (n : Nat) : String :=
  if n < 10 then "0" ++ toString n else toString n

/- Zero-padded four-digit rendering, as Python %04d (for years). -/
def pad4 (n : Nat) : String :=
  if n < 10 then "000" ++ toString n
  else if n < 100 then "00" ++ toString n
  else if n < 1000 then "0" ++ toString n
  else toString n

/- date.isoformat(): "YYYY-MM-DD". -/
def isoDate (d : PyDate) : String :=
  pad4 d.year ++ "-" ++ pad2 d.month ++ "-" ++ pad2 d.day

/- datetime.isoformat(): "YYYY-MM-DDTHH:MM:SS" (microseconds are zero). -/
def isoDateTime (t : PyDateTime) : String :=
  pad4 t.year ++ "-" ++ pad2 t.month ++ "-" ++ pad2 t.day ++ "T" ++
    pad2 t.hour ++ ":" ++ pad2 t.minute ++ ":" ++ pad2 t.second

/- str(datetime): isoformat with a space separator instead of "T". -/
def strDateTime (t : PyDateTime) : String :=
  pad4 t.year ++ "-" ++ pad2 t.month ++ "-" ++ pad2 t.day ++ " " ++
    pad2 t.hour ++ ":" ++ pad2 t.minute ++ ":" ++ pad2 t.second

/- A scalar value of a DBF record field as it travels through the pipeline:
   None, integer (field types I, 0, and N without decimals), boolean (field
   type L), text (field types C, M), date (field type D), datetime (field
   type T), or a floating point value holding an exact integer — the form
   an integer takes after passing through a REAL-affinity column.  General
   non-integral IEEE floats (field type F, and N with decimals) are outside
   the embedding: floating point arithmetic and shortest-repr rendering are
   not modelled, and no claim below quantifies over them. -/
inductive Value where
  | vNull
  | vInt (n : Int)
  | vBool (b : Bool)
  | vStr (s : String)
  | vDate (d : PyDate)
  | vDateTime (t : PyDateTime)
  | vFloatInt (n : Int)
deriving DecidableEq

/- Python str() on a scalar value.  str(None) = "None", str on an int is
   its decimal rendering, str(True) = "True" and str(False) = "False",
   str on a str is itself, str(date) = date.isoformat(),
   str(datetime) = datetime.isoformat(sep=" ") — note the space separator,
   which differs from datetime.isoformat()'s "T" — and str() of a float
   holding the exact integer n renders as the decimal of n followed by
   ".0" (valid for the magnitudes used below; Python switches to exponent
   notation only beyond 1e16). -/
def pyStr : Value → String
  | Value.vNull => "None"
  | Value.vInt n => toString n
  | Value.vBool true => "True"
  | Value.vBool false => "False"
  | Value.vStr s => s
  | Value.vDate d => isoDate d
  | Value.vDateTime t => strDateTime t
  | Value.vFloatInt n => toString n ++ ".0"

/- isinstance(v, date) in Python: true for date and also for datetime,
   since datetime is a subclass of date. -/
def isDateValue : Value → Bool
  | Value.vDate _ => true
  | Value.vDateTime _ => true
  | _ => false

/- v.isoformat() for the values on which insert_records calls it
   (those passing the isinstance(v, date) test). -/
def isoformatOf : Value → String
  | Value.vDate d => isoDate d
  | Value.vDateTime t => isoDateTime t
  | v => pyStr v

/- The Python-side binding of a value into the INSERT statement: the
   registered adapters (dbfToSqlite.py lines 62-72) replace date and
   datetime by their isoformat() strings, and a bool is bound as its
   integer value because bool is a subclass of int; None, integers, text
   and floats bind as themselves. -/
def bindVal : Value → Value
  | Value.vDate d => Value.vStr (isoDate d)
  | Value.vDateTime t => Value.vStr (isoDateTime t)
  | Value.vBool b => Value.vInt (if b then 1 else 0)
  | v => v

/- SQLite column type affinity.  No column this pipeline declares gets BLOB
   affinity, so three named affinities and NUMERIC suffice. -/
inductive Affinity where
  | integer
  | text
  | real
  | numeric
deriving DecidableEq

/- SQLite's declared-type-to-affinity rules (substring "INT" gives INTEGER,
   "CHAR"/"CLOB"/"TEXT" gives TEXT, "REAL"/"FLOA"/"DOUB" gives REAL,
   otherwise NUMERIC), written out for the finite set of declared types
   this pipeline can produce — the typemap values plus the "TEXT" default:
   INTEGER is the only one containing "INT", TEXT the only one containing a
   TEXT keyword, FLOAT and REAL the only ones with a REAL keyword, and
   BOOLEAN, DATE and DATETIME fall through to NUMERIC. -/
def affinityOf : String → Affinity
  | "INTEGER" => Affinity.integer
  | "TEXT" => Affinity.text
  | "FLOAT" => Affinity.real
  | "REAL" => Affinity.real
  | _ => Affinity.numeric

/- SQLite's storage conversion of a bound value under a column affinity:
   REAL affinity forces an integer into floating point form; INTEGER and
   NUMERIC affinity turn an integral real back into an integer (the
   conversion is lossless at the magnitudes modelled); TEXT affinity
   renders a number as its text form (SQLite renders the integral real n
   as the decimal of n followed by ".0").  NULL and — under the numeric
   affinities — text are kept as they are.  One deliberate cut: under
   INTEGER/REAL/NUMERIC affinity SQLite would also coerce text that forms
   a well-formed numeric literal into a number; the texts this pipeline
   stores in such columns are ISO date/datetime strings and clock times,
   which are never well-formed numbers, so the identity is faithful for
   every value the theorems below evaluate. -/
def applyAffinity : Affinity → Value → Value
  | Affinity.real, Value.vInt n => Value.vFloatInt n
  | Affinity.integer, Value.vFloatInt n => Value.vInt n
  | Affinity.numeric, Value.vFloatInt n => Value.vInt n
  | Affinity.text, Value.vInt n => Value.vStr (toString n)
  | Affinity.text, Value.vFloatInt n => Value.vStr (toString n ++ ".0")
  | _, v => v

/- The value actually stored in a column of the given affinity: the bound
   value after SQLite's storage conversion.  Reads return it unchanged. -/
def storeVal (a : Affinity) (v : Value) : Value :=
  applyAffinity a (bindVal v)

/- The affinities of the three fingerprint columns of the destination
   table, fixed once at table creation from the declared column types. -/
structure ColAff where
  pat : Affinity
  dat : Affinity
  time : Affinity
deriving DecidableEq

/- A canonicalized fingerprint triple (wz__pat, wz__dat, wz_time). -/
abbrev Fp := String × String × String

/- One DBF record, with the three fingerprint-bearing fields named and the
   remaining field values of the row kept in declared order. -/
structure Rec where
  pat : Value
  dat : Value
  time : Value
  rest : List Value
deriving DecidableEq

/- rec_tuple of insert_records (dbfToSqlite.py lines 118-120):
   str(rec['wz__pat']),
   rec['wz__dat'].isoformat() if isinstance(rec['wz__dat'], date) else str(...),
   str(rec['wz_time']). -/
def fingerprint (r : Rec) : Fp :=
  (pyStr r.pat,
   if isDateValue r.dat then isoformatOf r.dat else pyStr r.dat,
   pyStr r.time)

/- One stored row of the destination table: surrogate id, the stored
   (adapted) values of the three fingerprint columns, the stored values of
   the remaining columns, and the mandant (tenant) tag. -/
structure Row where
  id : Nat
  pat : Value
  dat : Value
  time : Value
  rest : List Value
  mandant : String
deriving DecidableEq

/- The fingerprint load_existing_records computes from a stored row
   (dbfToSqlite.py line 93): str() of each of the three stored columns. -/
def rowFp (row : Row) : Fp :=
  (pyStr row.pat, pyStr row.dat, pyStr row.time)

/- The destination SQLite database: the (single) destination table's schema
   if it has been created, the affinities of its three fingerprint columns
   (fixed when the table was created and never changed afterwards, exactly
   as in SQLite), its rows in insertion order, and the next AUTOINCREMENT
   id (ids start at 1 and are never reused). -/
structure DB where
  schema : Option (List String)
  colAff : ColAff
  rows : List Row
  nextId : Nat
deriving DecidableEq

/- A fresh database: no table yet.  The colAff value of a not-yet-created
   table is a placeholder (the program would fail if it queried or inserted
   before CREATE TABLE; the driver always creates first). -/
def emptyDB : DB :=
  { schema := none,
    colAff := { pat := Affinity.text, dat := Affinity.text, time := Affinity.text },
    rows := [], nextId := 1 }

/- The typemap dict (dbfToSqlite.py lines 50-60): DBF field type tag to
   SQLite column type. -/
def typemap : List (Char × String) :=
  [('F', "FLOAT"),
   ('L', "BOOLEAN"),
   ('I', "INTEGER"),
   ('C', "TEXT"),
   ('N', "REAL"),
   ('M', "TEXT"),
   ('D', "DATE"),
   ('T', "DATETIME"),
   ('0', "INTEGER")]

/- typemap.get(tag, 'TEXT') as used at dbfToSqlite.py line 78. -/
def typemapGet (t : Char) : String :=
  (typemap.lookup t).getD "TEXT"

/- One declared DBF field: name (lowercased by dbfread) and type tag. -/
structure DbfField where
  name : String
  ftype : Char
deriving DecidableEq

/- table.field_names: the declared field names in source order. -/
def field_names (fs : List DbfField) : List String :=
  fs.map (fun f => f.name)

/- The dict comprehension of dbfToSqlite.py line 78:
   field_types = {field.name: typemap.get(field.type, 'TEXT') for field in table.fields}.
   A Python dict keeps the LAST binding for a repeated key, hence the lookup
   over the reversed list.  The none branch is unreachable in the program:
   the keys looked up are exactly the names of table.fields. -/
def field_types (fs : List DbfField) (n : String) : String :=
  match fs.reverse.find? (fun f => f.name == n) with
  | some f => typemapGet f.ftype
  | none => "TEXT"

/- Double-quoting of identifiers, as in the CREATE TABLE statement. -/
def quoteIdent (s : String) : String := "\"" ++ s ++ "\""

/- The column definition list of create_table_if_not_exists
   (dbfToSqlite.py lines 81-83): the id primary key first, then one column
   per entry of table.field_names, then the mandant column last. -/
def create_table_defs (fs : List DbfField) : List String :=
  (quoteIdent "id" ++ " INTEGER PRIMARY KEY AUTOINCREMENT")
    :: ((field_names fs).map (fun n => quoteIdent n ++ " " ++ field_types fs n)
        ++ [quoteIdent "mandant" ++ " TEXT"])

/- The affinities the created table's three fingerprint columns get: the
   affinity of each column's declared type as produced by the field_types
   dict.  (If a fingerprint field were missing from the source schema the
   real program would fail on the first SELECT; the dict-default branch is
   unreachable through the driver.) -/
def colAffOf (fs : List DbfField) : ColAff :=
  { pat := affinityOf (field_types fs "wz__pat"),
    dat := affinityOf (field_types fs "wz__dat"),
    time := affinityOf (field_types fs "wz_time") }

/- create_table_if_not_exists (dbfToSqlite.py lines 74-87): CREATE TABLE IF
   NOT EXISTS — a no-op when the table already exists, with no
   reconciliation of column differences (in particular the existing
   columns keep their affinities); otherwise record the schema and the
   fingerprint columns' affinities. -/
def create_table_if_not_exists (db : DB) (fs : List DbfField) : DB :=
  match db.schema with
  | some _ => db
  | none => { db with schema := some (create_table_defs fs), colAff := colAffOf fs }

/- load_existing_records (dbfToSqlite.py lines 89-93):
   SELECT wz__pat, wz__dat, wz_time FROM table WHERE mandant = ?, collected
   as the set of str()-triples.  The set is modelled as a list used only
   through membership. -/
def load_existing_records (db : DB) (m : String) : List Fp :=
  (db.rows.filter (fun row => row.mandant == m)).map rowFp

/- The row the INSERT statement of dbfToSqlite.py line 106/124 produces:
   NULL for id (so SQLite assigns the next AUTOINCREMENT value), the
   record's values in declared order passed through the registered adapters
   and the target columns' affinities, and the mandant tag appended last.
   The rest columns are bound through the adapters but their affinity
   conversion is left out: this pipeline never reads them back
   (load_existing_records selects only the three fingerprint columns), so
   their storage class is unobservable to every claim below. -/
def storedRow (ca : ColAff) (i : Nat) (r : Rec) (m : String) : Row :=
  { id := i,
    pat := storeVal ca.pat r.pat,
    dat := storeVal ca.dat r.dat,
    time := storeVal ca.time r.time,
    rest := r.rest.map bindVal,
    mandant := m }

def insertRow (db : DB) (r : Rec) (m : String) : DB :=
  { db with
    rows := db.rows ++ [storedRow db.colAff db.nextId r m],
    nextId := db.nextId + 1 }

/- The record loop of insert_records (dbfToSqlite.py lines 114-126): for
   each record in source order, compute rec_tuple; if it is in the existing
   set, skip; otherwise execute the INSERT, count it, and add the tuple to
   the in-memory set so later records of the same pass see it.  Returns the
   updated database and inserted_count. -/
def insertLoop (m : String) : List Rec → DB → List Fp → DB × Nat
  | [], db, _ => (db, 0)
  | r :: rs, db, ex =>
    if fingerprint r ∈ ex then
      insertLoop m rs db ex
    else
      ((insertLoop m rs (insertRow db r m) (fingerprint r :: ex)).1,
       (insertLoop m rs (insertRow db r m) (fingerprint r :: ex)).2 + 1)

/- insert_records (dbfToSqlite.py lines 95-132): load the existing
   fingerprints for this mandant, then run the record loop. -/
def insert_records (db : DB) (recs : List Rec) (m : String) : DB × Nat :=
  insertLoop m recs db (load_existing_records db m)

/- What main() finds for one configured tenant: the DBF file is missing,
   reading it raises UnicodeDecodeError, or it parses into a field list and
   a record list. -/
inductive Source where
  | missing
  | decodeError
  | ok (fields : List DbfField) (recs : List Rec)
deriving DecidableEq

/- A logged warning event; missingSource m models the logging.warning call
   of dbfToSqlite.py line 156 for the tenant whose file was absent (the
   concrete message text interpolates the file path). -/
inductive LogWarning where
  | missingSource (mandant : String)
deriving DecidableEq

/- The message passed to sys.exit at dbfToSqlite.py line 177. -/
def decodeGuidance : String := "Please use encoding or char-decode-errors."

/- The tenant loop of main() (dbfToSqlite.py lines 152-177): tenants in
   configured order; a missing file logs a warning and continues; a
   UnicodeDecodeError aborts the whole run via sys.exit; otherwise the
   table is created if absent and the records are ingested. -/
def processTenants : List (String × Source) → DB → Except String (DB × List LogWarning)
  | [], db => Except.ok (db, [])
  | (m, src) :: rest, db =>
    match src with
    | Source.missing =>
      match processTenants rest db with
      | Except.ok p => Except.ok (p.1, LogWarning.missingSource m :: p.2)
      | Except.error e => Except.error e
    | Source.decodeError => Except.error decodeGuidance
    | Source.ok fields recs =>
      processTenants rest (insert_records (create_table_if_not_exists db fields) recs m).1

/- Outcome of one whole run of main(): the committed database if the single
   conn.commit() after the tenant loop was reached (sys.exit aborts before
   it, so nothing is committed), whether the process exited successfully,
   the warnings logged, and the sys.exit message if any. -/
structure MainResult where
  committed : Option DB
  success : Bool
  warnings : List LogWarning
  errMsg : Option String
deriving DecidableEq

def mainRun (tenants : List (String × Source)) (db : DB) : MainResult :=
  match processTenants tenants db with
  | Except.ok p =>
    { committed := some p.1, success := true, warnings := p.2, errMsg := none }
  | Except.error e =>
    { committed := none, success := false, warnings := [], errMsg := some e }

/- Number of destination rows carrying a given mandant tag. -/
def rowCount (db : DB) (m : String) : Nat :=
  (db.rows.filter (fun row => row.mandant == m)).length

/- No two rows of the same mandant share a canonicalized fingerprint. -/
def NoDupFps (db : DB) : Prop :=
  db.rows.Pairwise (fun a b => a.mandant = b.mandant → rowFp a ≠ rowFp b)

instance (db : DB) : Decidable (NoDupFps db) :=
  inferInstanceAs
    (Decidable (db.rows.Pairwise
      (fun a b : Row => a.mandant = b.mandant → rowFp a ≠ rowFp b)))

/- ### Helper lemmas ### -/

/- Structure of one pass of the record loop: the passed-in rows are kept
   untouched in place, the schema slot and the mandant tags behave as
   expected, the appended rows receive consecutive AUTOINCREMENT ids
   starting at the current counter, and their payloads form a sublist of
   the (adapter-processed) source records in source order. -/
theorem insertLoop_spec (m : String) :
    ∀ (recs : List Rec) (db : DB) (ex : List Fp), ∃ tail : List Row,
      (insertLoop m recs db ex).1.rows = db.rows ++ tail ∧
      (insertLoop m recs db ex).1.schema = db.schema ∧
      (insertLoop m recs db ex).1.nextId = db.nextId + tail.length ∧
      tail.map Row.id = List.range' db.nextId tail.length ∧
      (∀ row ∈ tail, row.mandant = m) ∧
      List.Sublist (tail.map (fun row => (row.pat, row.dat, row.time, row.rest)))
        (recs.map (fun r => (storeVal db.colAff.pat r.pat, storeVal db.colAff.dat r.dat,
          storeVal db.colAff.time r.time, r.rest.map bindVal)))
  | [], db, ex => ⟨[], by simp [insertLoop]⟩
  | r :: rs, db, ex => by
    by_cases hmem : fingerprint r ∈ ex
    · obtain ⟨tail, h1, h2, h3, h4, h5, h6⟩ := insertLoop_spec m rs db ex
      exact ⟨tail, by simpa [insertLoop, hmem] using h1,
        by simpa [insertLoop, hmem] using h2,
        by simpa [insertLoop, hmem] using h3, h4, h5,
        by simpa using h6.cons _⟩
    · obtain ⟨tail, h1, h2, h3, h4, h5, h6⟩ :=
        insertLoop_spec m rs (insertRow db r m) (fingerprint r :: ex)
      refine ⟨storedRow db.colAff db.nextId r m :: tail, ?_, ?_, ?_, ?_, ?_, ?_⟩
      · simp only [insertLoop, hmem, if_false]
        rw [h1]
        simp [insertRow]
      · simp only [insertLoop, hmem, if_false]
        rw [h2]
        rfl
      · simp only [insertLoop, hmem, if_false, List.length_cons]
        rw [h3]
        have : (insertRow db r m).nextId = db.nextId + 1 := rfl
        rw [this]
        omega
      · rw [List.length_cons, List.range'_succ, List.map_cons]
        have : (insertRow db r m).nextId = db.nextId + 1 := rfl
        rw [this] at h4
        simp [storedRow, h4]
      · intro row hrow
        rcases List.mem_cons.mp hrow with rfl | hr
        · rfl
        · exact h5 row hr
      · have hca : (insertRow db r m).colAff = db.colAff := rfl
        rw [hca] at h6
        simpa [storedRow] using h6.cons₂
          ((storedRow db.colAff db.nextId r m).pat,
            (storedRow db.colAff db.nextId r m).dat,
            (storedRow db.colAff db.nextId r m).time,
            (storedRow db.colAff db.nextId r m).rest)

/- A successful dict .get on an association list returns one of its
   values. -/
theorem lookup_mem_values :
    ∀ (l : List (Char × String)) (a : Char) (b : String),
      l.lookup a = some b → b ∈ l.map Prod.snd
  | [], _, _, h => Option.noConfusion h
  | (k, v) :: rest, a, b, h => by
    cases hk : a == k with
    | true =>
      simp only [List.lookup, hk] at h
      simp only [List.map_cons, List.mem_cons]
      exact Or.inl (Option.some.inj h).symm
    | false =>
      simp only [List.lookup, hk] at h
      exact List.mem_cons_of_mem _ (lookup_mem_values rest a b h)

/- A key absent from an association list looks up to none. -/
theorem lookup_eq_none_of_not_mem :
    ∀ (l : List (Char × String)) (a : Char),
      a ∉ l.map Prod.fst → l.lookup a = none
  | [], _, _ => rfl
  | (k, v) :: rest, a, h => by
    have hak : (a == k) = false := by
      rw [beq_eq_false_iff_ne]
      intro heq
      exact h (by simp [heq])
    simp only [List.lookup, hak]
    exact lookup_eq_none_of_not_mem rest a (fun hm => h (List.mem_cons_of_mem _ hm))

/- In a field list with pairwise distinct names, a field is determined by
   its name. -/
theorem eq_of_name_eq_of_nodup :
    ∀ (fs : List DbfField), (field_names fs).Nodup →
      ∀ f ∈ fs, ∀ g ∈ fs, f.name = g.name → f = g
  | [], _, f, hf, _, _, _ => absurd hf (List.not_mem_nil f)
  | f0 :: rest, hnd, f, hf, g, hg, hname => by
    simp only [field_names, List.map_cons, List.nodup_cons] at hnd
    rcases List.mem_cons.mp hf with rfl | hf' <;>
      rcases List.mem_cons.mp hg with rfl | hg'
    · rfl
    · exact absurd (hname ▸ List.mem_map_of_mem DbfField.name hg') hnd.1
    · exact absurd (hname ▸ List.mem_map_of_mem DbfField.name hf') hnd.1
    · exact eq_of_name_eq_of_nodup rest hnd.2 f hf' g hg' hname

/- Under distinct field names, the field_types dict lookup yields exactly
   the typemap image of the field's own type tag. -/
theorem field_types_of_nodup (fs : List DbfField) (hnd : (field_names fs).Nodup)
    (f : DbfField) (hf : f ∈ fs) :
    field_types fs f.name = typemapGet f.ftype := by
  have hex : ∃ x ∈ fs.reverse, (x.name == f.name) = true :=
    ⟨f, List.mem_reverse.mpr hf, by simp⟩
  cases hfind : fs.reverse.find? (fun g => g.name == f.name) with
  | none =>
    rw [List.find?_eq_none] at hfind
    obtain ⟨x, hx, hpx⟩ := hex
    exact absurd hpx (hfind x hx)
  | some g =>
    have hpg := List.find?_some hfind
    have hgmem : g ∈ fs := List.mem_reverse.mp (List.mem_of_find?_eq_some hfind)
    have hgf : g = f :=
      eq_of_name_eq_of_nodup fs hnd g hgmem f hf (by simpa using hpg)
    subst hgf
    simp [field_types, hfind]

/- Splitting the tenant loop of main() at any point: the suffix runs on the
   database the prior tenants produced, and the warnings concatenate. -/
theorem processTenants_append :
    ∀ (a b : List (String × Source)) (db : DB),
      processTenants (a ++ b) db =
        (processTenants a db).bind (fun p =>
          (processTenants b p.1).map (fun q => (q.1, p.2 ++ q.2)))
  | [], b, db => by
    simp only [List.nil_append, processTenants, Except.bind]
    cases h : processTenants b db <;> simp [Except.map]
  | (m, src) :: rest, b, db => by
    cases src with
    | missing =>
      simp only [List.cons_append, processTenants]
      rw [List.append_eq, processTenants_append rest b db]
      cases hr : processTenants rest db with
      | error e => simp [Except.bind]
      | ok p =>
        simp only [Except.bind]
        cases hb : processTenants b p.1 with
        | error e => simp [Except.map]
        | ok q => simp [Except.map]
    | decodeError => simp [processTenants, Except.bind]
    | ok fields recs =>
      simp only [List.cons_append, processTenants]
      exact processTenants_append rest b _

/- ### Claim theorems ### -/

/-- Claim C1 (code bug): the code's own docstring and the spec promise that
re-running over an unchanged source inserts nothing new, but the program
breaks this for realistic sources.  Evaluation at the failing input: a
source whose wz__pat field is numeric (DBF type N, declared column type
REAL) with integer patient id 123, wz__dat a date and wz_time a character
time.  The first run stores the id through the REAL-affinity column as the
float 123.0; the second run's load_existing_records therefore returns
fingerprint component "123.0" while insert_records recomputes str(123) =
"123", so the very same record is inserted again — the second pass reports
inserted count 1 instead of 0.  (Datetime-valued wz_time — space-separated
str() against the stored "T"-separated isoformat — and boolean components —
"True" against the stored 1 — fail the same way.) -/
theorem rerun_reinserts_numeric_id :
    (insert_records
        (insert_records
          (create_table_if_not_exists emptyDB
            [⟨"wz__pat", 'N'⟩, ⟨"wz__dat", 'D'⟩, ⟨"wz_time", 'C'⟩])
          [{ pat := Value.vInt 123, dat := Value.vDate ⟨2024, 1, 1⟩, time := Value.vStr "10:00", rest := [] }]
          "a").1
        [{ pat := Value.vInt 123, dat := Value.vDate ⟨2024, 1, 1⟩, time := Value.vStr "10:00", rest := [] }]
        "a").2 = 1 := by
  decide

/-- Claim C2 (code bug): the core invariant — no two rows of one tenant
with identical canonicalized fingerprints — is violated by the program at
the same failing input as C1: after two runs of the unchanged N-typed
source, tenant "a" holds two rows whose stored fingerprint columns are
identical (both read back as ("123.0", "2024-01-01", "10:00")), because the
insert-time fingerprint "123" never matches the REAL-affinity stored form
"123.0". -/
theorem duplicate_fingerprints_numeric_id :
    ¬ NoDupFps
      (insert_records
        (insert_records
          (create_table_if_not_exists emptyDB
            [⟨"wz__pat", 'N'⟩, ⟨"wz__dat", 'D'⟩, ⟨"wz_time", 'C'⟩])
          [{ pat := Value.vInt 123, dat := Value.vDate ⟨2024, 1, 1⟩, time := Value.vStr "10:00", rest := [] }]
          "a").1
        [{ pat := Value.vInt 123, dat := Value.vDate ⟨2024, 1, 1⟩, time := Value.vStr "10:00", rest := [] }]
        "a").1 := by
  decide

/-- Claim C3 (code bug): fingerprint canonicalization is meant to
round-trip through the store — the isinstance(date) special case at insert
time exists precisely to render wz__dat the way the stored row will read
back — but it fails to: at the failing input (integer patient id 123 in
the REAL-declared wz__pat column) the stored row reads back under
fingerprint ("123.0", "2024-01-01", "10:00") while insert_records computed
("123", "2024-01-01", "10:00"), so the inserted row does not contribute
the insert-time fingerprint to a later load. -/
theorem fingerprint_no_roundtrip_numeric_id :
    load_existing_records
        (insertRow
          (create_table_if_not_exists emptyDB
            [⟨"wz__pat", 'N'⟩, ⟨"wz__dat", 'D'⟩, ⟨"wz_time", 'C'⟩])
          { pat := Value.vInt 123, dat := Value.vDate ⟨2024, 1, 1⟩, time := Value.vStr "10:00", rest := [] }
          "a") "a"
      ≠ load_existing_records
          (create_table_if_not_exists emptyDB
            [⟨"wz__pat", 'N'⟩, ⟨"wz__dat", 'D'⟩, ⟨"wz_time", 'C'⟩]) "a"
        ++ [fingerprint
              { pat := Value.vInt 123, dat := Value.vDate ⟨2024, 1, 1⟩, time := Value.vStr "10:00", rest := [] }] := by
  decide

/-- Claim C4: tenant isolation — running insert_records for tenant A
changes neither the fingerprint set load_existing_records returns for a
distinct tenant B nor the number of rows with mandant = B: the existing-key
query filters on mandant and every inserted row carries tenant tag A. -/
theorem tenant_isolation (db : DB) (recs : List Rec) (A B : String) (h : A ≠ B) :
    load_existing_records (insert_records db recs A).1 B
      = load_existing_records db B ∧
    rowCount (insert_records db recs A).1 B = rowCount db B := by
  obtain ⟨tail, h1, _, _, _, h5, _⟩ :=
    insertLoop_spec A recs db (load_existing_records db A)
  have hfil : (insert_records db recs A).1.rows.filter (fun row => row.mandant == B)
      = db.rows.filter (fun row => row.mandant == B) := by
    show ((insertLoop A recs db (load_existing_records db A)).1.rows.filter _) = _
    rw [h1, List.filter_append]
    have hnil : tail.filter (fun row => row.mandant == B) = [] := by
      rw [List.filter_eq_nil_iff]
      intro row hrow
      simp [h5 row hrow, h]
    rw [hnil, List.append_nil]
  exact ⟨by simp only [load_existing_records, hfil],
    by simp only [rowCount, hfil]⟩

/-- Witness for C4: inserting a concrete record for tenant "a" leaves
tenant "b"'s fingerprint set and row count untouched. -/
theorem tenant_isolation_witness :
    (("a" : String) ≠ "b") ∧
    (load_existing_records
        (insert_records emptyDB
          [{ pat := Value.vStr "7", dat := Value.vDate ⟨2024, 1, 1⟩,
             time := Value.vStr "10:00", rest := [] }] "a").1 "b"
        = load_existing_records emptyDB "b" ∧
     rowCount
        (insert_records emptyDB
          [{ pat := Value.vStr "7", dat := Value.vDate ⟨2024, 1, 1⟩,
             time := Value.vStr "10:00", rest := [] }] "a").1 "b"
        = rowCount emptyDB "b") :=
  ⟨by decide,
   tenant_isolation emptyDB
     [{ pat := Value.vStr "7", dat := Value.vDate ⟨2024, 1, 1⟩,
        time := Value.vStr "10:00", rest := [] }] "a" "b" (by decide)⟩

/-- Claim C5: the field type mapper is total — for every type tag it
returns a column type (one of the mapped SQLite types or the generic
TEXT), and every tag outside the fixed alphabet maps to TEXT. -/
theorem typemap_total_default_text (t : Char) :
    (typemapGet t ∈ typemap.map Prod.snd ∨ typemapGet t = "TEXT") ∧
    (t ∉ typemap.map Prod.fst → typemapGet t = "TEXT") := by
  constructor
  · cases h : typemap.lookup t with
    | none => exact Or.inr (by simp [typemapGet, h])
    | some s =>
      exact Or.inl (by simpa [typemapGet, h] using lookup_mem_values typemap t s h)
  · intro hnot
    simp [typemapGet, lookup_eq_none_of_not_mem typemap t hnot]

/-- Witness for C5: the unknown tag X maps to TEXT. -/
theorem typemap_total_default_text_witness :
    ('X' ∉ typemap.map Prod.fst) ∧ typemapGet 'X' = "TEXT" :=
  ⟨by decide, (typemap_total_default_text 'X').2 (by decide)⟩

/-- Claim C6: when the destination table is absent, the Schema Synchronizer
creates it with column sequence exactly: the auto-increment integer primary
key id first, then each foreign field with its name preserved and its
mapped type in source-declared order, then the TEXT column mandant last;
rows and the id counter are untouched.  When the table already exists the
operation changes nothing (no reconciliation of column differences).  The
field names of a DBF table are pairwise distinct, which the Nodup
hypothesis records. -/
theorem create_table_shape (db : DB) (fs : List DbfField)
    (hnd : (field_names fs).Nodup) :
    (db.schema = none →
      (create_table_if_not_exists db fs).schema
        = some ((quoteIdent "id" ++ " INTEGER PRIMARY KEY AUTOINCREMENT")
            :: (fs.map (fun f => quoteIdent f.name ++ " " ++ typemapGet f.ftype)
                ++ [quoteIdent "mandant" ++ " TEXT"])) ∧
      (create_table_if_not_exists db fs).rows = db.rows ∧
      (create_table_if_not_exists db fs).nextId = db.nextId) ∧
    (∀ s, db.schema = some s → create_table_if_not_exists db fs = db) := by
  constructor
  · intro h0
    have hcte : create_table_if_not_exists db fs
        = { db with schema := some (create_table_defs fs), colAff := colAffOf fs } := by
      simp [create_table_if_not_exists, h0]
    rw [hcte]
    refine ⟨?_, rfl, rfl⟩
    have hmap : (fs.map (fun f => f.name)).map
          (fun n => quoteIdent n ++ " " ++ field_types fs n)
        = fs.map (fun f => quoteIdent f.name ++ " " ++ typemapGet f.ftype) := by
      rw [List.map_map]
      apply List.map_congr_left
      intro f hf
      simp [Function.comp, field_types_of_nodup fs hnd f hf]
    simp [create_table_defs, field_names, hmap]
  · intro s hs
    simp [create_table_if_not_exists, hs]

/-- Witness for C6: a concrete three-field schema produces the expected
column sequence. -/
theorem create_table_shape_witness :
    (field_names [({ name := "wz__pat", ftype := 'C' } : DbfField),
                  { name := "wz__dat", ftype := 'D' },
                  { name := "wz_time", ftype := 'C' }]).Nodup ∧
    (create_table_if_not_exists emptyDB
        [({ name := "wz__pat", ftype := 'C' } : DbfField),
         { name := "wz__dat", ftype := 'D' },
         { name := "wz_time", ftype := 'C' }]).schema
      = some ((quoteIdent "id" ++ " INTEGER PRIMARY KEY AUTOINCREMENT")
          :: ([({ name := "wz__pat", ftype := 'C' } : DbfField),
               { name := "wz__dat", ftype := 'D' },
               { name := "wz_time", ftype := 'C' }].map
                 (fun f => quoteIdent f.name ++ " " ++ typemapGet f.ftype)
              ++ [quoteIdent "mandant" ++ " TEXT"])) :=
  ⟨by decide,
   ((create_table_shape emptyDB
      [{ name := "wz__pat", ftype := 'C' },
       { name := "wz__dat", ftype := 'D' },
       { name := "wz_time", ftype := 'C' }] (by decide)).1 rfl).1⟩

/-- Claim C7: missing-source tolerance — a tenant whose source file is
absent is skipped with a warning logged for it; the tenants before and
after it are processed exactly as they would be without it (same databases,
same per-tenant outcomes, same other warnings), and the run's success is
exactly that of the run without the missing tenant (success whenever no
other tenant fails). -/
theorem missing_source_tolerance (pre post : List (String × Source)) (c : String)
    (db : DB) :
    processTenants (pre ++ (c, Source.missing) :: post) db =
      (processTenants pre db).bind (fun p =>
        (processTenants post p.1).map
          (fun q => (q.1, p.2 ++ LogWarning.missingSource c :: q.2))) ∧
    (mainRun (pre ++ (c, Source.missing) :: post) db).success
      = (mainRun (pre ++ post) db).success := by
  have happ := processTenants_append pre ((c, Source.missing) :: post) db
  have happ2 := processTenants_append pre post db
  constructor
  · rw [happ]
    cases hpre : processTenants pre db with
    | error e => rfl
    | ok p =>
      simp only [Except.bind]
      cases hpost : processTenants post p.1 with
      | error e => simp [processTenants, hpost, Except.map]
      | ok q => simp [processTenants, hpost, Except.map]
  · simp only [mainRun, happ, happ2]
    cases hpre : processTenants pre db with
    | error e => simp [Except.bind]
    | ok p =>
      simp only [Except.bind]
      cases hpost : processTenants post p.1 with
      | error e => simp [processTenants, hpost, Except.map]
      | ok q => simp [processTenants, hpost, Except.map]

/-- Claim C8: decode-failure fatality — if decoding a tenant's source
raises a character-encoding error, the whole process aborts with the
encoding guidance message, nothing is committed (the commit after the
tenant loop is never reached), and the tenants after the failing one are
never processed: the outcome does not depend on them at all. -/
theorem decode_failure_aborts (pre post : List (String × Source)) (c : String)
    (db d : DB) (ws : List LogWarning)
    (h : processTenants pre db = Except.ok (d, ws)) :
    mainRun (pre ++ (c, Source.decodeError) :: post) db =
      { committed := none, success := false, warnings := [],
        errMsg := some decodeGuidance } := by
  have happ := processTenants_append pre ((c, Source.decodeError) :: post) db
  rw [h] at happ
  simp only [Except.bind, processTenants, Except.map] at happ
  simp [mainRun, happ]

/-- Witness for C8: a run whose first tenant hits the decode error commits
nothing and exits with the guidance message. -/
theorem decode_failure_aborts_witness :
    mainRun [(("a" : String), Source.decodeError)] emptyDB
      = { committed := none, success := false, warnings := [],
          errMsg := some decodeGuidance } :=
  decode_failure_aborts [] [] "a" emptyDB emptyDB [] rfl

/-- Claim C9: order preservation — one ingestion pass appends its rows
after the preexisting ones, the appended rows' payloads follow the source
record order (they form a sublist of the source records as processed by
the adapters and the table's column affinities), and their surrogate ids
strictly increase in that order (NULL is supplied for id, so the
auto-increment key is assigned in insert order). -/
theorem order_preservation (db : DB) (recs : List Rec) (m : String) :
    ∃ tail : List Row,
      (insert_records db recs m).1.rows = db.rows ++ tail ∧
      List.Sublist (tail.map (fun row => (row.pat, row.dat, row.time, row.rest)))
        (recs.map (fun r => (storeVal db.colAff.pat r.pat, storeVal db.colAff.dat r.dat,
          storeVal db.colAff.time r.time, r.rest.map bindVal))) ∧
      (tail.map Row.id).Pairwise (fun a b => a < b) := by
  obtain ⟨tail, h1, _, _, h4, _, h6⟩ :=
    insertLoop_spec m recs db (load_existing_records db m)
  exact ⟨tail, h1, h6, by rw [h4]; exact List.pairwise_lt_range' _ _⟩

/-- Claim C10: ingestion is insert-only — every row present before a run is
still present, unmodified and in place afterwards (the new rows are purely
appended), and a duplicate record is skipped leaving both the table and the
in-memory index unchanged. -/
theorem insert_only (db : DB) (recs : List Rec) (m : String) :
    (∃ tail, (insert_records db recs m).1.rows = db.rows ++ tail) ∧
    (∀ (r : Rec) (rs : List Rec) (ex : List Fp), fingerprint r ∈ ex →
      insertLoop m (r :: rs) db ex = insertLoop m rs db ex) := by
  constructor
  · obtain ⟨tail, h1, _⟩ := insertLoop_spec m recs db (load_existing_records db m)
    exact ⟨tail, h1⟩
  · intro r rs ex h
    simp [insertLoop, h]

/-- Witness for C10: skipping a concrete duplicate record leaves the run
over the remaining records unchanged. -/
theorem insert_only_witness :
    (fingerprint ⟨Value.vNull, Value.vNull, Value.vNull, []⟩
      ∈ [fingerprint ⟨Value.vNull, Value.vNull, Value.vNull, []⟩]) ∧
    insertLoop "a" [⟨Value.vNull, Value.vNull, Value.vNull, []⟩] emptyDB
        [fingerprint ⟨Value.vNull, Value.vNull, Value.vNull, []⟩]
      = insertLoop "a" [] emptyDB
        [fingerprint ⟨Value.vNull, Value.vNull, Value.vNull, []⟩] :=
  ⟨by decide,
   (insert_only emptyDB [] "a").2
     ⟨Value.vNull, Value.vNull, Value.vNull, []⟩ []
     [fingerprint ⟨Value.vNull, Value.vNull, Value.vNull, []⟩]
     (by decide)⟩

end DbfToSqlite
